import Mathlib

/-
Verification development for the Party Drink Tracker BAC estimation engine.

The engine lives in two places in the repository:
  * `Guest.calculate_bac` in `app/models.py` — the instantaneous ("current")
    BAC of a guest, computed from the guest weight in pounds and the list
    of drink-consumption events;
  * the inline per-sample computation in `bac_chart` / `group_bac_chart`
    in `app/host/routes.py` — the timeline variant sampled on a grid of
    timestamps produced by a while-loop.

Modelling conventions:
  * Real arithmetic of the Python source is embedded as exact rational
    arithmetic over ℚ.
  * Timestamps and the evaluation instant are rationals measured in seconds
    (the source subtracts `datetime` values and calls `total_seconds()`).
  * `datetime.now()` (the wall clock in the local timezone of the machine) is
    modelled as the UTC instant plus the local UTC-offset in seconds; event
    timestamps default to `datetime.utcnow` and are plain UTC instants.
  * The Python builtin `round(x, 3)` is embedded as `round (x * 10^3) / 10^3` using
    the Mathlib integer rounding.  Python rounds exact ties to the even
    digit while the Mathlib `round` rounds ties up; none of the concrete
    values appearing below sits on a tie, and every order/bound/precision
    property proved here holds for either tie-breaking rule.
-/

namespace PartyApp

/-- Constants from `app/constants.py` (BAC calculation section). -/
def ETHANOL_DENSITY_G_PER_ML : ℚ := 0.789

/-- Average of the male (0.68) and female (0.55) Widmark constants. -/
def AVERAGE_GENDER_CONSTANT : ℚ := 0.62

/-- Pounds-to-kilograms conversion factor. -/
def LBS_TO_KG_CONVERSION : ℚ := 0.453592

/-- Average metabolism rate in percent per hour. -/
def BAC_METABOLISM_RATE : ℚ := 0.015

/-- Maximum BAC to display (visualisation cap). -/
def BAC_DISPLAY_CAP : ℚ := 0.5

/-- Number of decimal places for BAC display. -/
def BAC_DECIMAL_PRECISION : ℕ := 3

/-- Number of hours shown in BAC history charts. -/
def BAC_HISTORY_HOURS : ℚ := 6

/-- Interval between BAC sampling points in minutes. -/
def BAC_INTERVAL_MINUTES : ℚ := 15

/-- A drink type: alcohol-by-volume percentage and serving volume in
millilitres (`Drink` model of `app/models.py`; only the fields read by the
BAC computations are represented). -/
structure Drink where
  abv : ℚ
  volume_ml : ℚ
deriving DecidableEq

/-- One consumption event: the drink consumed and the UTC timestamp in
seconds (`DrinkConsumption` of `app/models.py`; the drink is inlined since
the computations immediately dereference `consumption.drink`). -/
structure DrinkConsumption where
  drink : Drink
  timestamp : ℚ
deriving DecidableEq

/-- A guest: optional body weight in pounds and the list of consumption
events (`Guest` of `app/models.py`; identity fields are omitted). -/
structure Guest where
  weight : Option ℚ
  drinks : List DrinkConsumption
deriving DecidableEq

/-- Embedding of the Python builtin rounding `round(x, prec)`: scale, round
to an integer, unscale. -/
def round_to (prec : ℕ) (x : ℚ) : ℚ :=
  ((round (x * 10 ^ prec) : ℤ) : ℚ) / 10 ^ prec

/-- The value returned by `datetime.now()` expressed through the UTC
instant: the local wall-clock reading is the UTC instant shifted by the
UTC offset of the machine in seconds. -/
def localNow (utc_now tz_offset_seconds : ℚ) : ℚ :=
  utc_now + tz_offset_seconds

/-- Embedding of `Guest.calculate_bac` from `app/models.py` (lines 60–106).  The source
reads the clock via `datetime.now()`; that reading is passed here as the
explicit argument `current_time`.  The guard `not self.weight or
self.weight <= 0` is the `none` case together with `weight ≤ 0`. -/
def Guest.calculate_bac (g : Guest) (current_time : ℚ) : ℚ :=
  match g.weight with
  | none => 0
  | some weight =>
    if weight ≤ 0 then 0
    else
      let gender_constant := AVERAGE_GENDER_CONSTANT
      let total_alcohol_grams :=
        (g.drinks.map (fun consumption =>
          let alcohol_grams :=
            consumption.drink.abv * consumption.drink.volume_ml *
              ETHANOL_DENSITY_G_PER_ML / 100
          let hours_elapsed := (current_time - consumption.timestamp) / 3600
          max 0 (alcohol_grams -
            BAC_METABOLISM_RATE * hours_elapsed * weight * LBS_TO_KG_CONVERSION))).sum
      let weight_kg := weight * LBS_TO_KG_CONVERSION
      let bac := total_alcohol_grams / (weight_kg * gender_constant) * 100
      round_to BAC_DECIMAL_PRECISION (min bac BAC_DISPLAY_CAP)

/-- The per-timestamp BAC computation of the chart loop in
`app/host/routes.py` (`bac_chart`, lines 135–165; `group_bac_chart` repeats
the same block verbatim): filter the consumptions to those at or before the
sample timestamp, sum their alcohol grams, divide by body weight in grams
times the gender constant, subtract metabolism once from the earliest
relevant consumption, floor at 0, cap and round. -/
def bac_chart_sample (drinks : List DrinkConsumption) (weight : ℚ)
    (timestamp : ℚ) : ℚ :=
  let relevant_consumptions := drinks.filter (fun c => c.timestamp ≤ timestamp)
  match relevant_consumptions with
  | [] => 0
  | c :: cs =>
    let total_alcohol_grams :=
      ((c :: cs).map (fun consumption =>
        consumption.drink.abv * consumption.drink.volume_ml *
          ETHANOL_DENSITY_G_PER_ML / 100)).sum
    let weight_grams := weight * LBS_TO_KG_CONVERSION * 1000
    let bac := total_alcohol_grams / (weight_grams * AVERAGE_GENDER_CONSTANT) * 100
    let earliest_timestamp :=
      cs.foldl (fun acc x => min acc x.timestamp) c.timestamp
    let total_hours_elapsed := (timestamp - earliest_timestamp) / 3600
    let metabolized_bac := BAC_METABOLISM_RATE * total_hours_elapsed
    let bac2 := max 0 (bac - metabolized_bac)
    round_to BAC_DECIMAL_PRECISION (min bac2 BAC_DISPLAY_CAP)

/-- The timestamp-generation while-loop of `bac_chart`
(`while current <= now: timestamps.append(current); current += timedelta(minutes=15)`),
with the window end and the step in seconds as parameters.  The source
always runs it with step `15 * 60`; the `0 < step` guard records the
condition under which the source loop terminates. -/
def tsLoop (stop step current : ℚ) : List ℚ :=
  if h : 0 < step ∧ current ≤ stop then
    current :: tsLoop stop step (current + step)
  else
    []
termination_by (⌊(stop - current) / step + 1⌋).toNat
decreasing_by
  obtain ⟨hs, hc⟩ := h
  have hq : (0 : ℚ) ≤ (stop - current) / step :=
    div_nonneg (by linarith) (le_of_lt hs)
  have h1 : (stop - (current + step)) / step + 1 = (stop - current) / step := by
    field_simp
    ring
  rw [h1]
  have h2 : ⌊(stop - current) / step + 1⌋ = ⌊(stop - current) / step⌋ + 1 := by
    exact_mod_cast Int.floor_add_int ((stop - current) / step) 1
  rw [h2]
  have h3 : 0 ≤ ⌊(stop - current) / step⌋ := Int.floor_nonneg.mpr hq
  omega

/-- The list of sample timestamps of `bac_chart`: the loop started at the
window start.  In the source, `start = now − 6 hours`, `stop = now`,
`step = 15 minutes`. -/
def bac_chart_timestamps (start stop step : ℚ) : List ℚ :=
  tsLoop stop step start

/-- The list of BAC values plotted by `bac_chart`: one sample per generated
timestamp. -/
def bac_chart_values (drinks : List DrinkConsumption) (weight : ℚ)
    (start stop step : ℚ) : List ℚ :=
  (bac_chart_timestamps start stop step).map (bac_chart_sample drinks weight)

/-
Helper lemmas: evaluation and monotonicity of the rounding step, case
analyses of the two BAC computations, and the closed form of the
timestamp-generation loop.
-/

/-- Evaluation rule for rounding to three decimals: if the scaled value is
within a half of the integer `n`, the result is `n / 1000`. -/
lemma round_to_three_eq (x : ℚ) (n : ℤ) (h1 : (n : ℚ) - 1/2 ≤ x * 1000)
    (h2 : x * 1000 < (n : ℚ) + 1/2) : round_to 3 x = (n : ℚ) / 1000 := by
  unfold round_to
  have h3 : ((10:ℚ) ^ (3:ℕ)) = 1000 := by norm_num
  rw [h3, round_eq]
  have h4 : ⌊x * 1000 + 1/2⌋ = n := by
    rw [Int.floor_eq_iff]
    constructor
    · linarith
    · linarith
  rw [h4]

/-- Mathlib `round` on ℚ is monotone. -/
lemma round_le_round {a b : ℚ} (h : a ≤ b) : round a ≤ round b := by
  rw [round_eq, round_eq]
  exact Int.floor_mono (by linarith)

/-- The rounding step of both BAC computations is monotone. -/
lemma round_to_mono (p : ℕ) {x y : ℚ} (h : x ≤ y) :
    round_to p x ≤ round_to p y := by
  unfold round_to
  have hp : (0:ℚ) < 10 ^ p := by positivity
  have hr : (↑(round (x * 10 ^ p)) : ℚ) ≤ ↑(round (y * 10 ^ p)) := by
    exact_mod_cast round_le_round (mul_le_mul_of_nonneg_right h hp.le)
  exact (div_le_div_iff_of_pos_right hp).mpr hr

/-- Bounds and decimal shape of the rounding step on the clamped interval. -/
lemma round_to_three_bounds {x : ℚ} (h0 : 0 ≤ x) (h1 : x ≤ 1/2) :
    0 ≤ round_to 3 x ∧ round_to 3 x ≤ 1/2 ∧
      ∃ n : ℤ, round_to 3 x = (n : ℚ) / 1000 := by
  have e0 : round_to 3 0 = ((0 : ℤ) : ℚ) / 1000 := by
    apply round_to_three_eq <;> norm_num
  have e1 : round_to 3 (1/2) = ((500 : ℤ) : ℚ) / 1000 := by
    apply round_to_three_eq <;> norm_num
  refine ⟨?_, ?_, ?_⟩
  · have := round_to_mono 3 h0
    rw [e0] at this
    simpa using this
  · have := round_to_mono 3 h1
    rw [e1] at this
    norm_num at this
    exact this
  · refine ⟨round (x * 1000), ?_⟩
    unfold round_to
    norm_num

/-- A guest without a recorded weight gets BAC `0.0`. -/
lemma calculate_bac_weight_none (drinks : List DrinkConsumption) (t : ℚ) :
    Guest.calculate_bac ⟨none, drinks⟩ t = 0 := rfl

/-- A guest with non-positive weight gets BAC `0.0`. -/
lemma calculate_bac_weight_nonpos {w : ℚ} (hw : w ≤ 0)
    (drinks : List DrinkConsumption) (t : ℚ) :
    Guest.calculate_bac ⟨some w, drinks⟩ t = 0 := by
  simp only [Guest.calculate_bac]
  rw [if_pos hw]

/-- Unfolding of `calculate_bac` in the positive-weight branch. -/
lemma calculate_bac_of_pos {w : ℚ} (hw : 0 < w)
    (drinks : List DrinkConsumption) (t : ℚ) :
    Guest.calculate_bac ⟨some w, drinks⟩ t =
      round_to BAC_DECIMAL_PRECISION
        (min ((drinks.map (fun c =>
            max 0 (c.drink.abv * c.drink.volume_ml * ETHANOL_DENSITY_G_PER_ML / 100 -
              BAC_METABOLISM_RATE * ((t - c.timestamp) / 3600) * w *
                LBS_TO_KG_CONVERSION))).sum /
          (w * LBS_TO_KG_CONVERSION * AVERAGE_GENDER_CONSTANT) * 100)
          BAC_DISPLAY_CAP) := by
  simp only [Guest.calculate_bac]
  rw [if_neg (not_le.mpr hw)]

/-- A chart sample with no qualifying consumption is `0`. -/
lemma bac_chart_sample_no_relevant (drinks : List DrinkConsumption) (w t : ℚ)
    (h : drinks.filter (fun c => c.timestamp ≤ t) = []) :
    bac_chart_sample drinks w t = 0 := by
  simp only [bac_chart_sample, h]

/-- The chart sample only looks at consumptions at or before its timestamp:
pre-filtering the event list to those events changes nothing. -/
lemma bac_chart_sample_filter (drinks : List DrinkConsumption) (w t : ℚ) :
    bac_chart_sample (drinks.filter (fun c => c.timestamp ≤ t)) w t =
      bac_chart_sample drinks w t := by
  simp only [bac_chart_sample, List.filter_filter, Bool.and_self]

/-- Unfolding of the chart sample for a single qualifying consumption. -/
lemma bac_chart_sample_single (c : DrinkConsumption) (w t : ℚ)
    (h : c.timestamp ≤ t) :
    bac_chart_sample [c] w t =
      round_to BAC_DECIMAL_PRECISION
        (min (max 0 (c.drink.abv * c.drink.volume_ml * ETHANOL_DENSITY_G_PER_ML / 100 /
            (w * LBS_TO_KG_CONVERSION * 1000 * AVERAGE_GENDER_CONSTANT) * 100 -
          BAC_METABOLISM_RATE * ((t - c.timestamp) / 3600))) BAC_DISPLAY_CAP) := by
  simp only [bac_chart_sample, List.filter_cons, List.filter_nil, h,
    decide_True, if_true, List.map_cons, List.map_nil, List.sum_cons,
    List.sum_nil, List.foldl_nil, add_zero]

/-- Closed form of the while-loop: an arithmetic progression whose length
is determined by the floor of the window width over the step. -/
lemma tsLoop_closed (step : ℚ) (hstep : 0 < step) :
    ∀ (n : ℕ) (stop current : ℚ),
      (⌊(stop - current) / step⌋ + 1).toNat = n →
      tsLoop stop step current =
        (List.range n).map (fun i : ℕ => current + (i : ℚ) * step) := by
  intro n
  induction n with
  | zero =>
    intro stop current h
    rw [tsLoop, dif_neg]
    · simp
    · rintro ⟨hs, hc⟩
      have hq : (0 : ℚ) ≤ (stop - current) / step :=
        div_nonneg (by linarith) hstep.le
      have h3 : 0 ≤ ⌊(stop - current) / step⌋ := Int.floor_nonneg.mpr hq
      omega
  | succ n ih =>
    intro stop current h
    have hfl : 0 ≤ ⌊(stop - current) / step⌋ := by omega
    have hq : (0 : ℚ) ≤ (stop - current) / step := by
      by_contra hneg
      push_neg at hneg
      have h4 : ⌊(stop - current) / step⌋ < 0 := by
        have := Int.lt_floor_add_one ((stop - current) / step)
        exact Int.floor_lt.mpr (by exact_mod_cast hneg)
      omega
    have hc : current ≤ stop := by
      have h5 : 0 ≤ (stop - current) / step * step :=
        mul_nonneg hq hstep.le
      rw [div_mul_cancel₀ _ (ne_of_gt hstep)] at h5
      linarith
    rw [tsLoop, dif_pos ⟨hstep, hc⟩]
    have hrec : (⌊(stop - (current + step)) / step⌋ + 1).toNat = n := by
      have h6 : (stop - (current + step)) / step = (stop - current) / step - 1 := by
        field_simp
        ring
      rw [h6]
      rw [Int.floor_sub_one]
      omega
    rw [ih stop (current + step) hrec, List.range_succ_eq_map]
    simp only [List.map_cons, List.map_map, Nat.cast_zero, zero_mul, add_zero]
    congr 1
    apply List.map_congr_left
    intro i _
    simp only [Function.comp_apply, Nat.succ_eq_add_one]
    push_cast
    ring

/-- Length of the generated timestamp list, in the nonempty-window case. -/
lemma bac_chart_timestamps_length (start stop step : ℚ) (hstep : 0 < step)
    (hle : start ≤ stop) :
    (bac_chart_timestamps start stop step).length =
      (⌊(stop - start) / step⌋).toNat + 1 := by
  have hfl : 0 ≤ ⌊(stop - start) / step⌋ :=
    Int.floor_nonneg.mpr (div_nonneg (by linarith) hstep.le)
  rw [bac_chart_timestamps,
    tsLoop_closed step hstep ((⌊(stop - start) / step⌋ + 1).toNat) stop start rfl,
    List.length_map, List.length_range]
  omega

/-- The generated timestamps are pairwise non-decreasing (indeed they
strictly increase with a positive step). -/
lemma bac_chart_timestamps_pairwise (start stop step : ℚ) (hstep : 0 < step) :
    (bac_chart_timestamps start stop step).Pairwise (· ≤ ·) := by
  rw [bac_chart_timestamps,
    tsLoop_closed step hstep ((⌊(stop - start) / step⌋ + 1).toNat) stop start rfl]
  refine List.Pairwise.map _ ?_ (List.pairwise_lt_range _)
  intro a b hab
  have : (a : ℚ) ≤ (b : ℚ) := by exact_mod_cast hab.le
  nlinarith [hstep.le]

/-- The instantaneous BAC always lands in the clamped, rounded set. -/
lemma calculate_bac_bounds (g : Guest) (t : ℚ) :
    0 ≤ Guest.calculate_bac g t ∧ Guest.calculate_bac g t ≤ 1/2 ∧
      ∃ n : ℤ, Guest.calculate_bac g t = (n : ℚ) / 1000 := by
  obtain ⟨wopt, drinks⟩ := g
  match wopt with
  | none =>
    rw [calculate_bac_weight_none]
    exact ⟨le_refl 0, by norm_num, ⟨0, by norm_num⟩⟩
  | some w =>
    rcases le_or_lt w 0 with hw | hw
    · rw [calculate_bac_weight_nonpos hw]
      exact ⟨le_refl 0, by norm_num, ⟨0, by norm_num⟩⟩
    · rw [calculate_bac_of_pos hw]
      have hsum : 0 ≤ (drinks.map (fun c =>
          max 0 (c.drink.abv * c.drink.volume_ml * ETHANOL_DENSITY_G_PER_ML / 100 -
            BAC_METABOLISM_RATE * ((t - c.timestamp) / 3600) * w *
              LBS_TO_KG_CONVERSION))).sum := by
        apply List.sum_nonneg
        intro x hx
        obtain ⟨c, _, rfl⟩ := List.mem_map.mp hx
        exact le_max_left 0 _
      have hden : 0 < w * LBS_TO_KG_CONVERSION * AVERAGE_GENDER_CONSTANT := by
        have : (0:ℚ) < LBS_TO_KG_CONVERSION := by norm_num [LBS_TO_KG_CONVERSION]
        have : (0:ℚ) < AVERAGE_GENDER_CONSTANT := by
          norm_num [AVERAGE_GENDER_CONSTANT]
        positivity
      have hbac : 0 ≤ (drinks.map (fun c =>
          max 0 (c.drink.abv * c.drink.volume_ml * ETHANOL_DENSITY_G_PER_ML / 100 -
            BAC_METABOLISM_RATE * ((t - c.timestamp) / 3600) * w *
              LBS_TO_KG_CONVERSION))).sum /
          (w * LBS_TO_KG_CONVERSION * AVERAGE_GENDER_CONSTANT) * 100 :=
        mul_nonneg (div_nonneg hsum hden.le) (by norm_num)
      have hlo : 0 ≤ min ((drinks.map (fun c =>
          max 0 (c.drink.abv * c.drink.volume_ml * ETHANOL_DENSITY_G_PER_ML / 100 -
            BAC_METABOLISM_RATE * ((t - c.timestamp) / 3600) * w *
              LBS_TO_KG_CONVERSION))).sum /
          (w * LBS_TO_KG_CONVERSION * AVERAGE_GENDER_CONSTANT) * 100)
          BAC_DISPLAY_CAP :=
        le_min hbac (by norm_num [BAC_DISPLAY_CAP])
      have hhi : min ((drinks.map (fun c =>
          max 0 (c.drink.abv * c.drink.volume_ml * ETHANOL_DENSITY_G_PER_ML / 100 -
            BAC_METABOLISM_RATE * ((t - c.timestamp) / 3600) * w *
              LBS_TO_KG_CONVERSION))).sum /
          (w * LBS_TO_KG_CONVERSION * AVERAGE_GENDER_CONSTANT) * 100)
          BAC_DISPLAY_CAP ≤ 1/2 := by
        refine le_trans (min_le_right _ _) ?_
        norm_num [BAC_DISPLAY_CAP]
      exact round_to_three_bounds hlo hhi

/-- Every chart sample lands in the clamped, rounded set, for any weight. -/
lemma bac_chart_sample_bounds (drinks : List DrinkConsumption) (w t : ℚ) :
    0 ≤ bac_chart_sample drinks w t ∧ bac_chart_sample drinks w t ≤ 1/2 ∧
      ∃ n : ℤ, bac_chart_sample drinks w t = (n : ℚ) / 1000 := by
  rcases hrel : drinks.filter (fun c => c.timestamp ≤ t) with _ | ⟨c, cs⟩
  · rw [bac_chart_sample_no_relevant drinks w t hrel]
    exact ⟨le_refl 0, by norm_num, ⟨0, by norm_num⟩⟩
  · have hform : bac_chart_sample drinks w t =
        round_to BAC_DECIMAL_PRECISION
          (min (max 0 (((c :: cs).map (fun consumption =>
              consumption.drink.abv * consumption.drink.volume_ml *
                ETHANOL_DENSITY_G_PER_ML / 100)).sum /
            (w * LBS_TO_KG_CONVERSION * 1000 * AVERAGE_GENDER_CONSTANT) * 100 -
            BAC_METABOLISM_RATE *
              ((t - cs.foldl (fun acc x => min acc x.timestamp) c.timestamp) /
                3600))) BAC_DISPLAY_CAP) := by
      simp only [bac_chart_sample, hrel]
    rw [hform]
    apply round_to_three_bounds
    · exact le_min (le_max_left 0 _) (by norm_num [BAC_DISPLAY_CAP])
    · refine le_trans (min_le_right _ _) ?_
      norm_num [BAC_DISPLAY_CAP]

/-- A guest with an empty consumption list gets BAC `0.0`. -/
lemma calculate_bac_no_drinks (wopt : Option ℚ) (t : ℚ) :
    Guest.calculate_bac ⟨wopt, []⟩ t = 0 := by
  match wopt with
  | none => exact calculate_bac_weight_none [] t
  | some w =>
    rcases le_or_lt w 0 with hw | hw
    · exact calculate_bac_weight_nonpos hw [] t
    · rw [calculate_bac_of_pos hw]
      simp only [List.map_nil, List.sum_nil, zero_div, zero_mul]
      have hmin : min (0:ℚ) BAC_DISPLAY_CAP = 0 :=
        min_eq_left (by norm_num [BAC_DISPLAY_CAP])
      rw [hmin]
      show round_to 3 0 = 0
      rw [round_to_three_eq 0 0 (by norm_num) (by norm_num)]
      norm_num

/-
Claims.
-/

/-- Claim C1: for every subject whose weight is absent or non-positive, the
instantaneous BAC calculation returns exactly `0.0`, regardless of the
event history and of the evaluation instant. -/
theorem C1_zero_bac_without_weight :
    (∀ (drinks : List DrinkConsumption) (t : ℚ),
        Guest.calculate_bac ⟨none, drinks⟩ t = 0) ∧
    (∀ (w : ℚ) (drinks : List DrinkConsumption) (t : ℚ), w ≤ 0 →
        Guest.calculate_bac ⟨some w, drinks⟩ t = 0) := by
  refine ⟨calculate_bac_weight_none, ?_⟩
  intro w drinks t hw
  exact calculate_bac_weight_nonpos hw drinks t

/-- Witness for C1 at weight `-50` and weight `none`, with a non-empty
event history. -/
theorem C1_zero_bac_without_weight_witness :
    Guest.calculate_bac ⟨some (-50), [⟨⟨5, 355⟩, 0⟩]⟩ 3600 = 0 ∧
    Guest.calculate_bac ⟨none, [⟨⟨5, 355⟩, 0⟩]⟩ 3600 = 0 :=
  ⟨C1_zero_bac_without_weight.2 (-50) [⟨⟨5, 355⟩, 0⟩] 3600 (by norm_num),
   C1_zero_bac_without_weight.1 [⟨⟨5, 355⟩, 0⟩] 3600⟩

/-- Claim C2 (code bug): the spec scenario — 150 lb, one drink of ABV 5.0
and 355 mL consumed at the evaluation instant — should yield `0.033` with
the weight converted to grams, as the timeline computation and the test
suite of the repository do; the instantaneous `calculate_bac` instead
divides by the weight in kilograms and returns the display cap `0.5`. -/
theorem C2_units_divergence :
    Guest.calculate_bac ⟨some 150, [⟨⟨5, 355⟩, 0⟩]⟩ 0 = 1/2 ∧
    bac_chart_sample [⟨⟨5, 355⟩, 0⟩] 150 0 = 33/1000 ∧
    (1/2 : ℚ) ≠ 33/1000 := by
  refine ⟨?_, ?_, by norm_num⟩
  · rw [calculate_bac_of_pos (by norm_num)]
    norm_num [ETHANOL_DENSITY_G_PER_ML, AVERAGE_GENDER_CONSTANT,
      LBS_TO_KG_CONVERSION, BAC_METABOLISM_RATE, BAC_DISPLAY_CAP,
      BAC_DECIMAL_PRECISION, min_def, max_def]
    rw [round_to_three_eq _ 500 (by norm_num) (by norm_num)]
    norm_num
  · rw [bac_chart_sample_single _ _ _ (le_refl 0)]
    norm_num [ETHANOL_DENSITY_G_PER_ML, AVERAGE_GENDER_CONSTANT,
      LBS_TO_KG_CONVERSION, BAC_METABOLISM_RATE, BAC_DISPLAY_CAP,
      BAC_DECIMAL_PRECISION, min_def, max_def]
    rw [round_to_three_eq _ 33 (by norm_num) (by norm_num)]
    norm_num

/-- Counterexample to claim C3 as stated: at 150 lb with a single drink of
ABV 9 and 250 mL evaluated at the instant of consumption, the point
calculation returns `0.5` while the per-sample timeline calculation
returns `0.042`. -/
theorem C3_counterexample :
    Guest.calculate_bac ⟨some 150, [⟨⟨9, 250⟩, 0⟩]⟩ 0 ≠
      bac_chart_sample [⟨⟨9, 250⟩, 0⟩] 150 0 := by
  have h1 : Guest.calculate_bac ⟨some 150, [⟨⟨9, 250⟩, 0⟩]⟩ 0 = 1/2 := by
    rw [calculate_bac_of_pos (by norm_num)]
    norm_num [ETHANOL_DENSITY_G_PER_ML, AVERAGE_GENDER_CONSTANT,
      LBS_TO_KG_CONVERSION, BAC_METABOLISM_RATE, BAC_DISPLAY_CAP,
      BAC_DECIMAL_PRECISION, min_def, max_def]
    rw [round_to_three_eq _ 500 (by norm_num) (by norm_num)]
    norm_num
  have h2 : bac_chart_sample [⟨⟨9, 250⟩, 0⟩] 150 0 = 21/500 := by
    rw [bac_chart_sample_single _ _ _ (le_refl 0)]
    norm_num [ETHANOL_DENSITY_G_PER_ML, AVERAGE_GENDER_CONSTANT,
      LBS_TO_KG_CONVERSION, BAC_METABOLISM_RATE, BAC_DISPLAY_CAP,
      BAC_DECIMAL_PRECISION, min_def, max_def]
    rw [round_to_three_eq _ 42 (by norm_num) (by norm_num)]
    norm_num
  rw [h1, h2]
  norm_num

/-- Claim C3 as amended: the instantaneous calculation and the per-sample
timeline calculation do not implement one elimination policy — they
disagree on some subject, event set and instant. -/
theorem C3_policies_differ :
    ∃ (g : Guest) (w t : ℚ), g.weight = some w ∧
      Guest.calculate_bac g t ≠ bac_chart_sample g.drinks w t := by
  refine ⟨⟨some 150, [⟨⟨10, 200⟩, 0⟩]⟩, 150, 0, rfl, ?_⟩
  have h1 : Guest.calculate_bac ⟨some 150, [⟨⟨10, 200⟩, 0⟩]⟩ 0 = 1/2 := by
    rw [calculate_bac_of_pos (by norm_num)]
    norm_num [ETHANOL_DENSITY_G_PER_ML, AVERAGE_GENDER_CONSTANT,
      LBS_TO_KG_CONVERSION, BAC_METABOLISM_RATE, BAC_DISPLAY_CAP,
      BAC_DECIMAL_PRECISION, min_def, max_def]
    rw [round_to_three_eq _ 500 (by norm_num) (by norm_num)]
    norm_num
  have h2 : bac_chart_sample [⟨⟨10, 200⟩, 0⟩] 150 0 = 37/1000 := by
    rw [bac_chart_sample_single _ _ _ (le_refl 0)]
    norm_num [ETHANOL_DENSITY_G_PER_ML, AVERAGE_GENDER_CONSTANT,
      LBS_TO_KG_CONVERSION, BAC_METABOLISM_RATE, BAC_DISPLAY_CAP,
      BAC_DECIMAL_PRECISION, min_def, max_def]
    rw [round_to_three_eq _ 37 (by norm_num) (by norm_num)]
    norm_num
  rw [h1, h2]
  norm_num

/-- Claim C4: for every input, the instantaneous BAC and every value of
the timeline lie in `[0, BAC_DISPLAY_CAP]` and are multiples of `1/1000`,
i.e. rounded to three decimal places. -/
theorem C4_clamp_and_precision :
    (∀ (g : Guest) (t : ℚ),
        0 ≤ Guest.calculate_bac g t ∧
        Guest.calculate_bac g t ≤ BAC_DISPLAY_CAP ∧
        ∃ n : ℤ, Guest.calculate_bac g t = (n : ℚ) / 1000) ∧
    (∀ (drinks : List DrinkConsumption) (w start stop step v : ℚ),
        v ∈ bac_chart_values drinks w start stop step →
        0 ≤ v ∧ v ≤ BAC_DISPLAY_CAP ∧ ∃ n : ℤ, v = (n : ℚ) / 1000) := by
  have hcap : BAC_DISPLAY_CAP = 1/2 := by norm_num [BAC_DISPLAY_CAP]
  constructor
  · intro g t
    rw [hcap]
    exact calculate_bac_bounds g t
  · intro drinks w start stop step v hv
    rw [bac_chart_values, List.mem_map] at hv
    obtain ⟨ts, _, rfl⟩ := hv
    rw [hcap]
    exact bac_chart_sample_bounds drinks w ts

/-- Witness for C4 at the standard-beer scenario and at a one-point
timeline window. -/
theorem C4_clamp_and_precision_witness :
    (0 ≤ Guest.calculate_bac ⟨some 150, [⟨⟨5, 355⟩, 0⟩]⟩ 0 ∧
      Guest.calculate_bac ⟨some 150, [⟨⟨5, 355⟩, 0⟩]⟩ 0 ≤ BAC_DISPLAY_CAP ∧
      ∃ n : ℤ, Guest.calculate_bac ⟨some 150, [⟨⟨5, 355⟩, 0⟩]⟩ 0 = (n : ℚ) / 1000) ∧
    (0 ≤ (0:ℚ) ∧ (0:ℚ) ≤ BAC_DISPLAY_CAP ∧ ∃ n : ℤ, (0:ℚ) = (n : ℚ) / 1000) := by
  refine ⟨C4_clamp_and_precision.1 ⟨some 150, [⟨⟨5, 355⟩, 0⟩]⟩ 0, ?_⟩
  apply C4_clamp_and_precision.2 [] 150 0 0 900 0
  have hts : bac_chart_timestamps 0 0 900 = [0] := by
    rw [bac_chart_timestamps, tsLoop, dif_pos (by norm_num), tsLoop,
      dif_neg (by norm_num)]
  rw [bac_chart_values, hts, List.map_cons, List.map_nil,
    bac_chart_sample_no_relevant [] 150 0 rfl]
  exact List.mem_singleton.mpr rfl

/-- Counterexample to claim C5 as stated: the instantaneous calculation
does not ignore events strictly after the evaluation instant — deleting a
strictly-future event changes its result (the event one hour in the future
contributes negative elapsed time and drives the result to the cap). -/
theorem C5_counterexample :
    Guest.calculate_bac ⟨some 150, [⟨⟨5, 355⟩, 3600⟩]⟩ 0 ≠
      Guest.calculate_bac ⟨some 150, []⟩ 0 := by
  have h1 : Guest.calculate_bac ⟨some 150, [⟨⟨5, 355⟩, 3600⟩]⟩ 0 = 1/2 := by
    rw [calculate_bac_of_pos (by norm_num)]
    norm_num [ETHANOL_DENSITY_G_PER_ML, AVERAGE_GENDER_CONSTANT,
      LBS_TO_KG_CONVERSION, BAC_METABOLISM_RATE, BAC_DISPLAY_CAP,
      BAC_DECIMAL_PRECISION, min_def, max_def]
    rw [round_to_three_eq _ 500 (by norm_num) (by norm_num)]
    norm_num
  rw [h1, calculate_bac_no_drinks]
  norm_num

/-- Claim C5 as amended: the timeline per-sample calculation uses only
events at or before its instant — pre-removing later events changes
nothing and an empty qualifying set gives `0.0` — while the instantaneous
calculation iterates over the whole event list with no cutoff, so a
strictly-future event changes its result. -/
theorem C5_only_past_events_amended :
    (∀ (drinks : List DrinkConsumption) (w t : ℚ),
        bac_chart_sample (drinks.filter (fun c => c.timestamp ≤ t)) w t =
          bac_chart_sample drinks w t) ∧
    (∀ (drinks : List DrinkConsumption) (w t : ℚ),
        drinks.filter (fun c => c.timestamp ≤ t) = [] →
        bac_chart_sample drinks w t = 0) ∧
    (Guest.calculate_bac ⟨some 150, [⟨⟨5, 355⟩, 3600⟩]⟩ 0 = 1/2 ∧
      Guest.calculate_bac ⟨some 150, []⟩ 0 = 0) := by
  refine ⟨bac_chart_sample_filter, bac_chart_sample_no_relevant, ?_, ?_⟩
  · rw [calculate_bac_of_pos (by norm_num)]
    norm_num [ETHANOL_DENSITY_G_PER_ML, AVERAGE_GENDER_CONSTANT,
      LBS_TO_KG_CONVERSION, BAC_METABOLISM_RATE, BAC_DISPLAY_CAP,
      BAC_DECIMAL_PRECISION, min_def, max_def]
    rw [round_to_three_eq _ 500 (by norm_num) (by norm_num)]
    norm_num
  · exact calculate_bac_no_drinks (some 150) 0

/-- Witness for C5 as amended, at a concrete event list with one future
event. -/
theorem C5_only_past_events_amended_witness :
    bac_chart_sample ([⟨⟨5, 355⟩, 7200⟩].filter
        (fun c => c.timestamp ≤ (0:ℚ))) 150 0 =
      bac_chart_sample [⟨⟨5, 355⟩, 7200⟩] 150 0 ∧
    bac_chart_sample [⟨⟨5, 355⟩, 7200⟩] 150 0 = 0 := by
  refine ⟨C5_only_past_events_amended.1 [⟨⟨5, 355⟩, 7200⟩] 150 0, ?_⟩
  apply C5_only_past_events_amended.2.1 [⟨⟨5, 355⟩, 7200⟩] 150 0
  simp only [List.filter_cons, List.filter_nil, decide_eq_true_eq]
  rw [if_neg]
  norm_num

/-- Claim C6: with a fixed single-event history, the BAC is non-increasing
between any two evaluation instants at or after the event, under both the
instantaneous calculation and the per-sample timeline calculation. -/
theorem C6_monotonic_decay :
    ∀ (wopt : Option ℚ) (c : DrinkConsumption) (t1 t2 : ℚ),
      c.timestamp ≤ t1 → t1 < t2 →
      Guest.calculate_bac ⟨wopt, [c]⟩ t2 ≤ Guest.calculate_bac ⟨wopt, [c]⟩ t1 ∧
      ∀ w : ℚ, bac_chart_sample [c] w t2 ≤ bac_chart_sample [c] w t1 := by
  intro wopt c t1 t2 ht1 ht12
  constructor
  · match wopt with
    | none =>
      rw [calculate_bac_weight_none, calculate_bac_weight_none]
    | some w =>
      rcases le_or_lt w 0 with hw | hw
      · rw [calculate_bac_weight_nonpos hw, calculate_bac_weight_nonpos hw]
      · rw [calculate_bac_of_pos hw, calculate_bac_of_pos hw]
        apply round_to_mono
        apply min_le_min _ le_rfl
        simp only [List.map_cons, List.map_nil, List.sum_cons, List.sum_nil,
          add_zero]
        have hden : 0 < w * LBS_TO_KG_CONVERSION * AVERAGE_GENDER_CONSTANT :=
          mul_pos (mul_pos hw (by norm_num [LBS_TO_KG_CONVERSION]))
            (by norm_num [AVERAGE_GENDER_CONSTANT])
        apply mul_le_mul_of_nonneg_right _ (by norm_num : (0:ℚ) ≤ 100)
        apply (div_le_div_iff_of_pos_right hden).mpr
        apply max_le_max le_rfl
        apply sub_le_sub_left
        apply mul_le_mul_of_nonneg_right _
          (by norm_num [LBS_TO_KG_CONVERSION] : (0:ℚ) ≤ LBS_TO_KG_CONVERSION)
        apply mul_le_mul_of_nonneg_right _ hw.le
        apply mul_le_mul_of_nonneg_left _
          (by norm_num [BAC_METABOLISM_RATE] : (0:ℚ) ≤ BAC_METABOLISM_RATE)
        apply (div_le_div_iff_of_pos_right (by norm_num : (0:ℚ) < 3600)).mpr
        linarith
  · intro w
    have ht2 : c.timestamp ≤ t2 := le_trans ht1 ht12.le
    rw [bac_chart_sample_single c w t1 ht1, bac_chart_sample_single c w t2 ht2]
    apply round_to_mono
    apply min_le_min _ le_rfl
    apply max_le_max le_rfl
    apply sub_le_sub_left
    apply mul_le_mul_of_nonneg_left _
      (by norm_num [BAC_METABOLISM_RATE] : (0:ℚ) ≤ BAC_METABOLISM_RATE)
    apply (div_le_div_iff_of_pos_right (by norm_num : (0:ℚ) < 3600)).mpr
    linarith

/-- Witness for C6: one drink at instant 0, compared at instants 0 and one
hour later, for a 150 lb subject. -/
theorem C6_monotonic_decay_witness :
    Guest.calculate_bac ⟨some 150, [⟨⟨5, 355⟩, 0⟩]⟩ 3600 ≤
      Guest.calculate_bac ⟨some 150, [⟨⟨5, 355⟩, 0⟩]⟩ 0 ∧
    bac_chart_sample [⟨⟨5, 355⟩, 0⟩] 150 3600 ≤
      bac_chart_sample [⟨⟨5, 355⟩, 0⟩] 150 0 :=
  ⟨(C6_monotonic_decay (some 150) ⟨⟨5, 355⟩, 0⟩ 0 3600 (le_refl 0)
      (by norm_num)).1,
   (C6_monotonic_decay (some 150) ⟨⟨5, 355⟩, 0⟩ 0 3600 (le_refl 0)
      (by norm_num)).2 150⟩

/-- Claim C7: the timeline samples run from the window start to the window
end inclusive, stepping by the interval; they are non-decreasing, their
count is `floor((stop − start)/step) + 1`, and with the default 6-hour
window and 15-minute interval the count is 25. -/
theorem C7_timeline_grid :
    (∀ start stop step : ℚ, 0 < step → start ≤ stop →
        (bac_chart_timestamps start stop step).length =
          (⌊(stop - start) / step⌋).toNat + 1) ∧
    (∀ start stop step : ℚ, 0 < step →
        (bac_chart_timestamps start stop step).Pairwise (· ≤ ·)) ∧
    (∀ now : ℚ,
        (bac_chart_timestamps (now - BAC_HISTORY_HOURS * 3600) now
          (BAC_INTERVAL_MINUTES * 60)).length = 25) := by
  refine ⟨bac_chart_timestamps_length, bac_chart_timestamps_pairwise, ?_⟩
  intro now
  have hstep : (0:ℚ) < BAC_INTERVAL_MINUTES * 60 := by
    norm_num [BAC_INTERVAL_MINUTES]
  have hle : now - BAC_HISTORY_HOURS * 3600 ≤ now := by
    norm_num [BAC_HISTORY_HOURS]
  rw [bac_chart_timestamps_length _ _ _ hstep hle]
  have h1 : (now - (now - BAC_HISTORY_HOURS * 3600)) /
      (BAC_INTERVAL_MINUTES * 60) = ((24:ℤ):ℚ) := by
    simp only [BAC_HISTORY_HOURS, BAC_INTERVAL_MINUTES]
    ring_nf
  rw [h1, Int.floor_intCast]
  rfl

/-- Witness for C7 at a concrete window from 0 to 3600 with a 900-second
step (length 5), and for the default window anchored at instant 0. -/
theorem C7_timeline_grid_witness :
    (bac_chart_timestamps 0 3600 900).length = (⌊(3600 - 0 : ℚ) / 900⌋).toNat + 1 ∧
    (bac_chart_timestamps 0 3600 900).Pairwise (· ≤ ·) ∧
    (bac_chart_timestamps ((0:ℚ) - BAC_HISTORY_HOURS * 3600) 0
      (BAC_INTERVAL_MINUTES * 60)).length = 25 :=
  ⟨C7_timeline_grid.1 0 3600 900 (by norm_num) (by norm_num),
   C7_timeline_grid.2.1 0 3600 900 (by norm_num),
   C7_timeline_grid.2.2 0⟩

/-- Counterexample to claim C8 as stated: an input with no qualifying
event — one drink of ABV 40 and 45 mL timestamped two hours after the
evaluation instant, for a 150 lb subject — does not resolve to `0.0`
under the instantaneous calculation: the negative elapsed time inflates
the remaining alcohol and the result is the display cap `0.5`. -/
theorem C8_counterexample :
    Guest.calculate_bac ⟨some 150, [⟨⟨40, 45⟩, 7200⟩]⟩ 0 ≠ 0 := by
  have h1 : Guest.calculate_bac ⟨some 150, [⟨⟨40, 45⟩, 7200⟩]⟩ 0 = 1/2 := by
    rw [calculate_bac_of_pos (by norm_num)]
    norm_num [ETHANOL_DENSITY_G_PER_ML, AVERAGE_GENDER_CONSTANT,
      LBS_TO_KG_CONVERSION, BAC_METABOLISM_RATE, BAC_DISPLAY_CAP,
      BAC_DECIMAL_PRECISION, min_def, max_def]
    rw [round_to_three_eq _ 500 (by norm_num) (by norm_num)]
    norm_num
  rw [h1]
  norm_num

/-- Claim C8 as amended: the estimator is total — both computations are
plain functions into ℚ with no error channel, mirroring the absence of
any raise in the source — and missing weight, non-positive weight and an
empty event list all resolve to the defined value `0.0` under the
instantaneous calculation, as does an empty qualifying set under the
timeline sample; but for the instantaneous calculation a non-empty
history whose events all lie strictly after the evaluation instant is
not collapsed to `0.0` — it can return a non-zero value, so only the
listed degenerate shapes are indistinguishable from a genuinely zero
BAC by the output alone. -/
theorem C8_never_raises_degrades_to_zero :
    (∀ (drinks : List DrinkConsumption) (t : ℚ),
        Guest.calculate_bac ⟨none, drinks⟩ t = 0) ∧
    (∀ (w : ℚ) (drinks : List DrinkConsumption) (t : ℚ), w ≤ 0 →
        Guest.calculate_bac ⟨some w, drinks⟩ t = 0) ∧
    (∀ (wopt : Option ℚ) (t : ℚ), Guest.calculate_bac ⟨wopt, []⟩ t = 0) ∧
    (∀ (drinks : List DrinkConsumption) (w t : ℚ),
        drinks.filter (fun c => c.timestamp ≤ t) = [] →
        bac_chart_sample drinks w t = 0) ∧
    Guest.calculate_bac ⟨some 150, [⟨⟨40, 45⟩, 7200⟩]⟩ 0 = 1/2 := by
  refine ⟨calculate_bac_weight_none, ?_, calculate_bac_no_drinks,
    bac_chart_sample_no_relevant, ?_⟩
  · intro w drinks t hw
    exact calculate_bac_weight_nonpos hw drinks t
  · rw [calculate_bac_of_pos (by norm_num)]
    norm_num [ETHANOL_DENSITY_G_PER_ML, AVERAGE_GENDER_CONSTANT,
      LBS_TO_KG_CONVERSION, BAC_METABOLISM_RATE, BAC_DISPLAY_CAP,
      BAC_DECIMAL_PRECISION, min_def, max_def]
    rw [round_to_three_eq _ 500 (by norm_num) (by norm_num)]
    norm_num

/-- Witness for C8 as amended: the degenerate shapes all output exactly
`0`. -/
theorem C8_never_raises_degrades_to_zero_witness :
    Guest.calculate_bac ⟨some 0, [⟨⟨40, 45⟩, 0⟩]⟩ 60 = 0 ∧
    Guest.calculate_bac ⟨some 180, []⟩ 60 = 0 ∧
    bac_chart_sample [⟨⟨40, 45⟩, 120⟩] 180 60 = 0 := by
  refine ⟨C8_never_raises_degrades_to_zero.2.1 0 [⟨⟨40, 45⟩, 0⟩] 60 le_rfl,
    C8_never_raises_degrades_to_zero.2.2.1 (some 180) 60,
    C8_never_raises_degrades_to_zero.2.2.2.1 [⟨⟨40, 45⟩, 120⟩] 180 60 ?_⟩
  simp only [List.filter_cons, List.filter_nil, decide_eq_true_eq]
  rw [if_neg]
  norm_num

/-- Claim C9 (code bug): the instantaneous calculation reads the clock via
the local-timezone `datetime.now()` while event timestamps are UTC
(`datetime.utcnow`), so on a machine 5 hours behind UTC the elapsed-hours
input is shifted by −5 and the BAC differs from the value the same history
gives when the clock reading is the UTC instant (`0.5` against `0.332`
for a 150 lb subject with one 5 percent, 3.55 mL drink consumed at the
evaluation instant). -/
theorem C9_timezone_offset_distorts_elapsed :
    (localNow 0 (-18000) - 0) / 3600 = -5 ∧
    Guest.calculate_bac ⟨some 150, [⟨⟨5, 355/100⟩, 0⟩]⟩ (localNow 0 (-18000)) =
      1/2 ∧
    Guest.calculate_bac ⟨some 150, [⟨⟨5, 355/100⟩, 0⟩]⟩ 0 = 83/250 ∧
    (1/2 : ℚ) ≠ 83/250 := by
  refine ⟨by norm_num [localNow], ?_, ?_, by norm_num⟩
  · rw [calculate_bac_of_pos (by norm_num)]
    norm_num [localNow, ETHANOL_DENSITY_G_PER_ML, AVERAGE_GENDER_CONSTANT,
      LBS_TO_KG_CONVERSION, BAC_METABOLISM_RATE, BAC_DISPLAY_CAP,
      BAC_DECIMAL_PRECISION, min_def, max_def]
    rw [round_to_three_eq _ 500 (by norm_num) (by norm_num)]
    norm_num
  · rw [calculate_bac_of_pos (by norm_num)]
    norm_num [ETHANOL_DENSITY_G_PER_ML, AVERAGE_GENDER_CONSTANT,
      LBS_TO_KG_CONVERSION, BAC_METABOLISM_RATE, BAC_DISPLAY_CAP,
      BAC_DECIMAL_PRECISION, min_def, max_def]
    rw [round_to_three_eq _ 332 (by norm_num) (by norm_num)]
    norm_num

/-- Claim C10: whenever the weight guard passes, the denominator
`weight_kg * gender_constant` of the division in `calculate_bac` is
strictly positive, so the division is always well defined. -/
theorem C10_denominator_positive :
    ∀ (g : Guest) (w : ℚ), g.weight = some w → ¬ (w ≤ 0) →
      0 < (w * LBS_TO_KG_CONVERSION) * AVERAGE_GENDER_CONSTANT ∧
      (w * LBS_TO_KG_CONVERSION) * AVERAGE_GENDER_CONSTANT ≠ 0 := by
  intro g w _ hw
  have hpos : 0 < (w * LBS_TO_KG_CONVERSION) * AVERAGE_GENDER_CONSTANT :=
    mul_pos (mul_pos (not_le.mp hw) (by norm_num [LBS_TO_KG_CONVERSION]))
      (by norm_num [AVERAGE_GENDER_CONSTANT])
  exact ⟨hpos, ne_of_gt hpos⟩

/-- Witness for C10 at a 150 lb guest. -/
theorem C10_denominator_positive_witness :
    0 < ((150:ℚ) * LBS_TO_KG_CONVERSION) * AVERAGE_GENDER_CONSTANT ∧
    ((150:ℚ) * LBS_TO_KG_CONVERSION) * AVERAGE_GENDER_CONSTANT ≠ 0 :=
  C10_denominator_positive ⟨some 150, []⟩ 150 rfl (by norm_num)

end PartyApp
